import Mathlib

/-!
Verification development for the `vigil` triage subsystem
(`internal/triage/engine.go`, `internal/triage/memstore/memstore.go`,
`internal/triage` service).  The Go code is shallowly embedded: pure data
is translated to Lean structures, the engine loop becomes a fuel-indexed
interpreter (returning `none` when the fuel runs out while the Go loop is
still spinning), and the mutable in-memory store becomes explicit state
passing.  Wall-clock fields (timestamps, durations) of the Go structs are
abstracted away: they never influence control flow, and `created_at` -
the one time field a contract depends on - is kept as a `Nat`.
Go's `*Conversation` pointer field is modelled by an explicit heap of
conversations addressed by `Nat` references, so that the aliasing
behaviour of the shallow struct copies in the store is captured exactly.
-/

namespace Vigil

/-- Status tracks where a triage is in its lifecycle
(`internal/triage/model.go`). -/
inductive Status where
  | pending
  | inProgress
  | complete
  | failed
  deriving DecidableEq, Repr

/-- Token usage reported by the provider for one response
(`internal/triage/llm.go`). -/
structure Usage where
  inputTokens : Nat
  outputTokens : Nat
  deriving DecidableEq, Repr

/-- One content block of a message.  The Go code uses a single struct with
optional fields discriminated by the `Type` string
(`internal/triage/llm.go`); JSON payloads are kept as raw strings.  The
wall-clock `Duration` field is abstracted away. -/
structure ContentBlock where
  type : String
  text : String := ""
  id : String := ""
  name : String := ""
  input : String := ""
  toolUseID : String := ""
  content : String := ""
  isError : Bool := false
  deriving DecidableEq, Repr

/-- A message sent to the provider (`internal/triage/llm.go`). -/
structure Message where
  role : String
  content : List ContentBlock
  deriving DecidableEq, Repr

/-- One exchange of the recorded conversation (`internal/triage/model.go`,
current revision: role, content, usage, stop reason, model; the
`Timestamp`/`Duration` wall-clock fields are abstracted away). -/
structure Turn where
  role : String
  content : List ContentBlock
  usage : Option Usage := none
  stopReason : String := ""
  model : String := ""
  deriving DecidableEq, Repr

/-- The outcome record of a triage (`internal/triage/model.go`).  The
`Conversation` field of the Go struct is a pointer `*Conversation`; it is
modelled as an optional reference (`Option Nat`) into an explicit heap of
conversations, which preserves the aliasing of Go's shallow struct
copies.  `createdAt` is the Go `CreatedAt time.Time`, abstracted to a
`Nat` instant; the remaining wall-clock fields are dropped. -/
structure Result where
  id : String := ""
  fingerprint : String := ""
  status : Status := Status.pending
  alert : String := ""
  severity : String := ""
  summary : String := ""
  analysis : String := ""
  toolsUsed : List String := []
  conversation : Option Nat := none
  createdAt : Nat := 0
  tokensUsed : Nat := 0
  toolCalls : Nat := 0
  systemPrompt : String := ""
  model : String := ""
  deriving DecidableEq, Repr

/-- An alert as consumed by the triage subsystem (`internal/alert`):
status, fingerprint, label and annotation maps, generator URL.  The
`StartsAt time.Time` field is kept as its already-rendered RFC3339
string, since the code only ever formats it into the prompt. -/
structure Alert where
  status : String
  fingerprint : String
  labels : List (String × String) := []
  annots : List (String × String) := []
  startsAtRFC3339 : String := ""
  generatorURL : String := ""
  deriving DecidableEq, Repr

/-- Go map lookup, yielding the zero value `""` on a miss. -/
def lookupD (m : List (String × String)) (k : String) : String :=
  match m.find? (fun p => p.1 = k) with
  | some p => p.2
  | none => ""

end Vigil

namespace Vigil

/-! ## In-memory store (`internal/triage/memstore/memstore.go`)

The Go store keeps `results : map[string]*triage.Result` and
`seen : map[string]string`.  Maps become association lists (first match
wins; update replaces in place or appends).  Conversations live behind
pointers; the heap `convs` holds them, a `Result.conversation` value of
`some i` is a pointer to cell `i`. -/

/-- Association-list lookup standing for a Go map read. -/
def alistFind : List (String × Result) → String → Option Result
  | [], _ => none
  | (k', v) :: rest, k => if k' = k then some v else alistFind rest k

/-- String-valued association-list lookup (for the `seen` map). -/
def alistFindS : List (String × String) → String → Option String
  | [], _ => none
  | (k', v) :: rest, k => if k' = k then some v else alistFindS rest k

/-- Association-list update standing for a Go map write. -/
def alistPut (m : List (String × Result)) (k : String) (v : Result) :
    List (String × Result) :=
  match m with
  | [] => [(k, v)]
  | (k', v') :: rest =>
      if k' = k then (k, v) :: rest else (k', v') :: alistPut rest k v

/-- String-valued association-list update (for the `seen` map). -/
def alistPutS (m : List (String × String)) (k v : String) :
    List (String × String) :=
  match m with
  | [] => [(k, v)]
  | (k', v') :: rest =>
      if k' = k then (k, v) :: rest else (k', v') :: alistPutS rest k v

/-- The in-memory store state: the two Go maps plus the conversation
heap that backs the `*Conversation` pointers. -/
structure MemStore where
  results : List (String × Result) := []
  seen : List (String × String) := []
  convs : List (List Turn) := []
  deriving DecidableEq, Repr

namespace MemStore

/-- `Store.Get`: look the result up and return `cp := *r`, a shallow copy
of the struct — the `conversation` reference is copied as-is, so the
caller's copy still points into the store's heap. -/
def get (s : MemStore) (id : String) : Option Result :=
  alistFind s.results id

/-- `Store.GetByFingerprint`: resolve the fingerprint through the `seen`
map, then return a shallow copy of the indexed result. -/
def getByFingerprint (s : MemStore) (fp : String) : Option Result :=
  match alistFindS s.seen fp with
  | some id => alistFind s.results id
  | none => none

/-- `Store.Put`: store a shallow copy, preserving a previously stored
conversation pointer when the incoming result has none. -/
def put (s : MemStore) (r : Result) : MemStore :=
  let cp :=
    if r.conversation = none then
      match alistFind s.results r.id with
      | some existing =>
          if existing.conversation ≠ none then
            { r with conversation := existing.conversation }
          else r
      | none => r
    else r
  { s with
    results := alistPut s.results r.id cp
    seen := alistPutS s.seen r.fingerprint r.id }

/-- `Store.AppendTurn`: on a missing triage id return `(0, nil)` and leave
the store untouched; otherwise allocate a conversation cell when the
stored result has none, and append (a copy of) the turn to the cell the
stored result points at.  The Go `(int, error)` return is `(Nat)` here
since the in-memory implementation never errors. -/
def appendTurn (s : MemStore) (triageID : String) (seq : Nat) (turn : Turn) :
    Nat × MemStore :=
  match alistFind s.results triageID with
  | none => (0, s)
  | some r =>
      match r.conversation with
      | none =>
          let ref := s.convs.length
          (seq,
            { s with
              results := alistPut s.results triageID
                { r with conversation := some ref }
              convs := s.convs ++ [[turn]] })
      | some ref =>
          (seq,
            { s with
              convs := s.convs.set ref ((s.convs.getD ref []) ++ [turn]) })

/-- The conversation a caller observes through a `Result` it holds: the
dereference of its conversation pointer against the store's heap. -/
def viewConv (s : MemStore) (r : Result) : Option (List Turn) :=
  match r.conversation with
  | none => none
  | some ref => some (s.convs.getD ref [])

end MemStore

end Vigil

namespace Vigil

/-! ## Engine (`internal/triage/engine.go`)

Budgets, the agentic loop, and tool dispatch.  The provider is external
nondeterminism: one run of `Engine.Run` observes a sequence of `Send`
outcomes, modelled as a function from the call index to
`Except String LLMResponse` (the Go error carries only its message).
The registry is its lookup function: a registered tool is its
`Execute`, a function from the raw JSON input string to
`Except String String`.  The Go `for` loop has no termination guarantee,
so the interpreter is fuel-indexed and yields `none` when the fuel is
exhausted with the loop still running.  The `onTurn` callback is omitted:
its errors are logged and ignored, so it never influences the loop
state or the returned `RunResult`. -/

/-- Loop budgets (`engine.go` const block). -/
def MaxToolRounds : Nat := 15

/-- Total token budget for one triage (`engine.go` const block). -/
def MaxTokens : Nat := 100000

/-- Per-request `max_tokens` cap (`engine.go` const block). -/
def ResponseTokens : Nat := 4096

/-- A provider response (`internal/triage/llm.go` `LLMResponse`). -/
structure LLMResponse where
  content : List ContentBlock
  stopReason : String
  usage : Usage
  model : String
  deriving DecidableEq, Repr

/-- The sequence of outcomes the provider's `Send` produces over the
successive calls of one run. -/
def ProviderScript := Nat → Except String LLMResponse

/-- A registry is its name lookup; a hit is the tool's `Execute`. -/
def Registry := String → Option (String → Except String String)

/-- The outcome record of `Engine.Run` (`engine.go` `RunResult`); the
wall-clock fields (`CompletedAt`, `Duration`, `LLMTime`, `ToolTime`) are
abstracted away. -/
structure RunResult where
  status : Status
  analysis : String
  toolsUsed : List String
  conversation : List Turn
  tokensUsed : Nat
  inputTokensUsed : Nat
  outputTokensUsed : Nat
  toolCalls : Nat
  systemPrompt : String
  model : String
  deriving DecidableEq, Repr

/-- Insertion into the `toolsUsedSet` map (`seen[block.Name] = struct{}{}`):
a set of names, kept as a duplicate-free list. -/
def insertSeen (seen : List String) (n : String) : List String :=
  if n ∈ seen then seen else seen ++ [n]

/-- Ascending insertion of a name into a sorted list. -/
def insertSorted (x : String) : List String → List String
  | [] => [x]
  | y :: ys => if x ≤ y then x :: y :: ys else y :: insertSorted x ys

/-- `sortedKeys` (`engine.go`): the names of the set in ascending order
(the Go code collects the map keys and `slices.Sort`s them; insertion
sort here, which agrees on duplicate-free inputs). -/
def sortedKeys (seen : List String) : List String :=
  seen.foldr insertSorted []

/-- `Engine.executeToolCalls`: walk the assistant content blocks in
order; every `tool_use` block counts one call and records its name; an
unregistered name yields an `is_error` result without invoking anything;
a tool error yields an `is_error` result; otherwise the output string.
Returns (results, calls, updated name set); the Go `totalDur` output is
wall-clock and abstracted away. -/
def executeToolCalls (registry : Registry) (content : List ContentBlock)
    (seen : List String) : List ContentBlock × Nat × List String :=
  match content with
  | [] => ([], 0, seen)
  | block :: rest =>
      if block.type ≠ "tool_use" then executeToolCalls registry rest seen
      else
        let seen' := insertSeen seen block.name
        let result : ContentBlock :=
          match registry block.name with
          | none =>
              { type := "tool_result", toolUseID := block.id
                content := "unknown tool: " ++ block.name, isError := true }
          | some exec =>
              match exec block.input with
              | Except.error e =>
                  { type := "tool_result", toolUseID := block.id
                    content := "tool error: " ++ e, isError := true }
              | Except.ok out =>
                  { type := "tool_result", toolUseID := block.id
                    content := out, isError := false }
        let rec' := executeToolCalls registry rest seen'
        (result :: rec'.1, rec'.2.1 + 1, rec'.2.2)

/-- The running state of the loop in `Engine.Run`: the request message
history, the recorded conversation, the token/tool accumulators, the
tool-name set and the last seen model. -/
structure LoopState where
  messages : List Message
  conv : List Turn
  totalInputTokens : Nat
  totalOutputTokens : Nat
  totalToolCalls : Nat
  toolsUsed : List String
  lastModel : String
  deriving DecidableEq, Repr

/-- The `RunResult` literal every return site of `Engine.Run` builds from
the current loop state (the sites differ only in status and analysis). -/
def finishResult (status : Status) (analysis : String) (st : LoopState)
    (systemPrompt : String) : RunResult :=
  { status := status
    analysis := analysis
    toolsUsed := sortedKeys st.toolsUsed
    conversation := st.conv
    tokensUsed := st.totalInputTokens + st.totalOutputTokens
    inputTokensUsed := st.totalInputTokens
    outputTokensUsed := st.totalOutputTokens
    toolCalls := st.totalToolCalls
    systemPrompt := systemPrompt
    model := st.lastModel }

/-- The `analysis` extraction at the `end_turn` return site of
`Engine.Run`: the last `text` block wins, default `""`. -/
def lastText (content : List ContentBlock) : String :=
  content.foldl (fun acc b => if b.type = "text" then b.text else acc) ""

/-- The `for` loop of `Engine.Run` (`engine.go`): pre-call budget checks
(tool rounds first, then tokens), the provider call with its error path,
token accounting, recording of the assistant turn, and the dispatch on
the stop reason (`end_turn` returns, `tool_use` executes the batch and
continues, anything else just loops).  `none` means the fuel ran out
with the loop still running. -/
def runLoop (registry : Registry) (provider : ProviderScript)
    (systemPrompt : String) :
    Nat → Nat → LoopState → Option RunResult
  | 0, _, _ => none
  | fuel + 1, callIdx, st =>
      if st.totalToolCalls ≥ MaxToolRounds then
        some (finishResult Status.complete
          "Triage terminated: tool call budget exhausted" st systemPrompt)
      else if st.totalInputTokens + st.totalOutputTokens ≥ MaxTokens then
        some (finishResult Status.complete
          "Triage terminated: token budget exhausted" st systemPrompt)
      else
        match provider callIdx with
        | Except.error e =>
            some (finishResult Status.failed ("LLM error: " ++ e) st
              systemPrompt)
        | Except.ok resp =>
            let st1 : LoopState :=
              { st with
                totalInputTokens :=
                  st.totalInputTokens + resp.usage.inputTokens
                totalOutputTokens :=
                  st.totalOutputTokens + resp.usage.outputTokens
                lastModel := resp.model
                conv := st.conv ++
                  [{ role := "assistant", content := resp.content
                     usage := some resp.usage
                     stopReason := resp.stopReason, model := resp.model }]
                messages := st.messages ++
                  [{ role := "assistant", content := resp.content }] }
            if resp.stopReason = "end_turn" then
              some (finishResult Status.complete (lastText resp.content)
                st1 systemPrompt)
            else if resp.stopReason = "tool_use" then
              let exec := executeToolCalls registry resp.content st.toolsUsed
              runLoop registry provider systemPrompt fuel (callIdx + 1)
                { st1 with
                  totalToolCalls := st.totalToolCalls + exec.2.1
                  toolsUsed := exec.2.2
                  conv := st1.conv ++
                    [{ role := "user", content := exec.1 }]
                  messages := st1.messages ++
                    [{ role := "user", content := exec.1 }] }
            else
              runLoop registry provider systemPrompt fuel (callIdx + 1) st1

/-- `buildSystemPrompt` (`engine.go`): the fixed system prompt. -/
def buildSystemPrompt (_ : Alert) : String :=
  "You are Vigil, an infrastructure triage AI. You analyze alerts and diagnose root causes.\n\nYou have access to tools that let you query metrics, read logs, and inspect infrastructure.\nUse them to investigate the alert, then provide a concise analysis with:\n1. What is happening\n2. Likely root cause\n3. Recommended actions\n4. Severity assessment (is this urgent or can it wait?)\n\nBe concise and operational. This goes to an engineer\x27s Slack channel."

/-- The rendering `json.MarshalIndent(m, "", "  ")` performs on a Go
`map[string]string`: keys sorted, two-space indent.  Escaping of special
characters inside keys and values is not modelled. -/
def insertSortedPair (x : String × String) :
    List (String × String) → List (String × String)
  | [] => [x]
  | y :: ys => if x.1 ≤ y.1 then x :: y :: ys else y :: insertSortedPair x ys

/-- Key-ascending ordering of the map entries, as Go's JSON encoder
emits them. -/
def sortByKey (m : List (String × String)) : List (String × String) :=
  m.foldr insertSortedPair []

def jsonIndentMap (m : List (String × String)) : String :=
  let sorted := sortByKey m
  match sorted with
  | [] => "\x7b\x7d"
  | _ =>
      "\x7b\n" ++
        String.intercalate ",\n"
          (sorted.map fun p =>
            "  \"" ++ p.1 ++ "\": \"" ++ p.2 ++ "\"") ++
        "\n\x7d"

/-- `buildInitialPrompt` (`engine.go`): the initial user message rendered
from the alert. -/
def buildInitialPrompt (al : Alert) : String :=
  "Alert firing: " ++ lookupD al.labels "alertname" ++
  "\nSeverity: " ++ lookupD al.labels "severity" ++
  "\nStatus: " ++ al.status ++
  "\nStarted: " ++ al.startsAtRFC3339 ++
  "\n\nLabels:\n" ++ jsonIndentMap al.labels ++
  "\n\nAnnotations:\n" ++ jsonIndentMap al.annots ++
  "\n\nGenerator: " ++ al.generatorURL ++
  "\n\nPlease investigate this alert using the available tools and provide your analysis."

/-- The initial loop state of `Engine.Run`: one user message holding the
initial prompt, an empty conversation, all accumulators zero. -/
def initState (al : Alert) : LoopState :=
  { messages := [{ role := "user"
                   content := [{ type := "text"
                                 text := buildInitialPrompt al }] }]
    conv := []
    totalInputTokens := 0
    totalOutputTokens := 0
    totalToolCalls := 0
    toolsUsed := []
    lastModel := "" }

/-- `Engine.Run`: run the loop from the initial state built from the
alert. -/
def engineRun (registry : Registry) (provider : ProviderScript)
    (al : Alert) (fuel : Nat) : Option RunResult :=
  runLoop registry provider (buildSystemPrompt al) fuel 0 (initState al)

end Vigil

namespace Vigil

/-! ## Service submission (`internal/triage` service, `Submit`)

`Submit` backed by the in-memory store.  The ULID the Go code mints and
the `time.Now()` instant are nondeterministic inputs and become the
`newID` / `now` parameters.  The in-memory store never returns an error,
so the error propagation branches of the Go code are unreachable here and
the result is pure.  The goroutine `Submit` spawns afterwards is outside
the synchronous contract modelled. -/

/-- The outcome of submitting an alert (`SubmitResult`). -/
structure SubmitResult where
  id : String := ""
  skipped : Bool := false
  reason : String := ""
  deriving DecidableEq, Repr

/-- The pending `Result` that `Submit` builds for an accepted alert:
fresh id, fields copied from the alert, `created_at = now`. -/
def submitNewResult (al : Alert) (newID : String) (now : Nat) : Result :=
  { id := newID
    fingerprint := al.fingerprint
    status := Status.pending
    alert := lookupD al.labels "alertname"
    severity := lookupD al.labels "severity"
    summary := lookupD al.annots "summary"
    createdAt := now }

/-- `Service.Submit`: reject non-firing alerts; skip as duplicate when the
fingerprint resolves to a result whose status is `pending` or
`in_progress`; otherwise create and store a fresh pending result and
return its id. -/
def serviceSubmit (s : MemStore) (al : Alert) (newID : String) (now : Nat) :
    SubmitResult × MemStore :=
  if al.status ≠ "firing" then
    ({ skipped := true, reason := "not firing" }, s)
  else
    let create : SubmitResult × MemStore :=
      ({ id := newID }, MemStore.put s (submitNewResult al newID now))
    match MemStore.getByFingerprint s al.fingerprint with
    | some existing =>
        if existing.status = Status.pending ∨
            existing.status = Status.inProgress then
          ({ skipped := true, reason := "duplicate" }, s)
        else create
    | none => create

end Vigil

namespace Vigil

/-! ## Concrete fixtures used by counterexamples and witnesses -/

/-- A firing alert used by the concrete runs. -/
def sampleAlert : Alert :=
  { status := "firing", fingerprint := "fp-1"
    labels := [("alertname", "HighCPU"), ("severity", "critical")] }

/-- A registry with no registered tools. -/
def emptyReg : Registry := fun _ => none

/-- A provider whose `Send` always fails with a fixed message. -/
def failScript : ProviderScript := fun _ => Except.error "api key expired"

/-- The i-th `tool_use` block of a batch. -/
def batchBlock (i : Nat) : ContentBlock :=
  { type := "tool_use", id := "c" ++ toString i, name := "loop_tool" }

/-- A provider whose first response carries 15 `tool_use` blocks and a
usage of exactly `MaxTokens` tokens, so that at the second loop head
both budgets are exhausted at once. -/
def scriptBudgetRace : ProviderScript := fun n =>
  if n = 0 then
    Except.ok
      { content := (List.range 15).map batchBlock
        stopReason := "tool_use"
        usage := { inputTokens := 100000, outputTokens := 0 }
        model := "M1" }
  else Except.error "no more"

/-- A provider whose first response carries 16 `tool_use` blocks in a
single assistant turn. -/
def scriptBatch16 : ProviderScript := fun n =>
  if n = 0 then
    Except.ok
      { content := (List.range 16).map batchBlock
        stopReason := "tool_use"
        usage := { inputTokens := 1, outputTokens := 1 }
        model := "M1" }
  else Except.error "no more"

/-- A provider every response of which has the unrecognized stop reason
`refusal`, one text block, and 60,000 input tokens of usage. -/
def scriptRefusal : ProviderScript := fun _ =>
  Except.ok
    { content := [{ type := "text", text := "oops" }]
      stopReason := "refusal"
      usage := { inputTokens := 60000, outputTokens := 0 }
      model := "M1" }

/-- The `tool_use` block requesting a tool that is not registered. -/
def unknownToolBlock : ContentBlock :=
  { type := "tool_use", id := "c1", name := "nonexistent_tool" }

/-- A provider that first requests the unregistered tool, then ends the
turn with the text `recovered`. -/
def scriptUnknownTool : ProviderScript := fun n =>
  if n = 0 then
    Except.ok
      { content := [unknownToolBlock]
        stopReason := "tool_use"
        usage := { inputTokens := 100, outputTokens := 50 }
        model := "M1" }
  else if n = 1 then
    Except.ok
      { content := [{ type := "text", text := "recovered" }]
        stopReason := "end_turn"
        usage := { inputTokens := 200, outputTokens := 100 }
        model := "M1" }
  else Except.error "no more"

/-- A loop state already over the token budget, before any tool call. -/
def overBudgetState : LoopState :=
  { messages := []
    conv := []
    totalInputTokens := 100000
    totalOutputTokens := 0
    totalToolCalls := 0
    toolsUsed := []
    lastModel := "" }

/-- First turn appended in the store aliasing scenario. -/
def turnA : Turn :=
  { role := "assistant", content := [{ type := "text", text := "t1" }] }

/-- Second turn appended in the store aliasing scenario. -/
def turnB : Turn :=
  { role := "user", content := [{ type := "text", text := "t2" }] }

/-- Store holding the result `a` with a one-turn conversation. -/
def aliasStore2 : MemStore :=
  (MemStore.appendTurn (MemStore.put {} { id := "a", fingerprint := "f" })
    "a" 0 turnA).2

/-- The result a caller obtained from `Get` against `aliasStore2`. -/
def aliasResult : Result :=
  { id := "a", fingerprint := "f", conversation := some 0 }

/-- `aliasStore2` after one more `AppendTurn` on the same triage. -/
def aliasStore3 : MemStore :=
  (MemStore.appendTurn aliasStore2 "a" 1 turnB).2

/-- Result with the later `created_at`, stored first. -/
def resultA : Result := { id := "a", fingerprint := "f", createdAt := 10 }

/-- Result with the earlier `created_at`, stored second. -/
def resultB : Result := { id := "b", fingerprint := "f", createdAt := 5 }

/-- Store holding `resultA` then `resultB` (same fingerprint). -/
def fpStore : MemStore := MemStore.put (MemStore.put {} resultA) resultB

/-- Store holding one active (pending) triage for fingerprint `fp-1`. -/
def dupStore : MemStore :=
  MemStore.put {} { id := "act", fingerprint := "fp-1"
                    status := Status.pending }

/-- Store holding only a terminal triage for fingerprint `fp-1`. -/
def termStore : MemStore :=
  MemStore.put {} { id := "old", fingerprint := "fp-1"
                    status := Status.complete }

/-- The number of `tool_use` blocks in an assistant content list (the
measure the tool-round budget counts). -/
def countToolUse (content : List ContentBlock) : Nat :=
  content.countP (fun b => b.type = "tool_use")

end Vigil

namespace Vigil

/-! ## Helper lemmas (shared) -/

/-- Looking up the key just written into an association list yields the
written value. -/
theorem alistFind_alistPut (m : List (String × Result)) (k : String)
    (v : Result) : alistFind (alistPut m k v) k = some v := by
  induction m with
  | nil => simp [alistPut, alistFind]
  | cons p rest ih =>
      by_cases h : p.1 = k
      · simp [alistPut, alistFind, h]
      · simp [alistPut, alistFind, h, ih]

/-- Looking up the key just written into the `seen` map yields the
written value. -/
theorem alistFindS_alistPutS (m : List (String × String)) (k v : String) :
    alistFindS (alistPutS m k v) k = some v := by
  induction m with
  | nil => simp [alistPutS, alistFindS]
  | cons p rest ih =>
      by_cases h : p.1 = k
      · simp [alistPutS, alistFindS, h]
      · simp [alistPutS, alistFindS, h, ih]

/-- The call counter of a tool batch equals the number of `tool_use`
blocks in the assistant content. -/
theorem executeToolCalls_count (registry : Registry)
    (content : List ContentBlock) (seen : List String) :
    (executeToolCalls registry content seen).2.1 = countToolUse content := by
  induction content generalizing seen with
  | nil => simp [executeToolCalls, countToolUse]
  | cons b rest ih =>
      by_cases hb : b.type = "tool_use"
      · simp [executeToolCalls, hb, countToolUse, List.countP_cons, ih]
      · simp [executeToolCalls, hb, countToolUse, List.countP_cons, ih]

end Vigil

namespace Vigil

/-! ## Claims -/

/-- C1 (counterexample): the per-iteration budget checks are ordered -
tool rounds first, then tokens.  In this run the single provider
response consumes exactly `MaxTokens` tokens and carries 15 `tool_use`
blocks, so at the second loop head the token budget is exhausted
(`tokensUsed = 100000 ≥ MaxTokens`, the accumulators at that head being
exactly the fields of the returned record), yet the run returns the
tool-call-budget analysis, not "Triage terminated: token budget
exhausted" as the claim requires. -/
theorem c1_check_order_counterexample :
    (engineRun emptyReg scriptBudgetRace sampleAlert 3).map
        (fun r => (r.status, r.analysis, r.tokensUsed, r.toolCalls)) =
      some (Status.complete,
        "Triage terminated: tool call budget exhausted", 100000, 15) ∧
    MaxTokens ≤ 100000 := by
  constructor
  · rfl
  · decide

/-- C1 (amended): `MaxTokens` is 100,000, and at the start of any loop
iteration at which the tool-round check does not fire
(`total_tool_calls < MaxToolRounds` — that check is evaluated first), if
the accumulated input plus output tokens reach `MaxTokens`, the run
returns immediately - for every provider, hence without a further
provider call - with status `complete` and analysis exactly
"Triage terminated: token budget exhausted". -/
theorem c1_token_budget_terminates (registry : Registry)
    (provider : ProviderScript) (sys : String) (callIdx : Nat)
    (st : LoopState) (fuel : Nat)
    (hTools : st.totalToolCalls < MaxToolRounds)
    (hTok : MaxTokens ≤ st.totalInputTokens + st.totalOutputTokens) :
    MaxTokens = 100000 ∧
    runLoop registry provider sys (fuel + 1) callIdx st =
      some (finishResult Status.complete
        "Triage terminated: token budget exhausted" st sys) := by
  refine ⟨rfl, ?_⟩
  have h1 : ¬ st.totalToolCalls ≥ MaxToolRounds := Nat.not_le.mpr hTools
  simp [runLoop, h1, hTok]

/-- C1 (witness for the amended theorem) at a state already holding
100,000 tokens and no tool calls. -/
theorem c1_token_budget_terminates_witness :
    MaxTokens = 100000 ∧
    runLoop emptyReg failScript "" 1 0 overBudgetState =
      some (finishResult Status.complete
        "Triage terminated: token budget exhausted" overBudgetState "") :=
  c1_token_budget_terminates emptyReg failScript "" 0 overBudgetState 0
    (by decide) (by decide)

/-- C2 (counterexample): one assistant turn carrying 16 `tool_use`
blocks pushes the counter to 16; the next pre-call check fires (the run
returns the tool-call-budget analysis) with `tool_calls = 16`, which
exceeds `MaxToolRounds = 15`, contradicting the claimed bound at points
where the pre-call check fires. -/
theorem c2_batch_counterexample :
    (engineRun emptyReg scriptBatch16 sampleAlert 3).map
        (fun r => (r.analysis, r.toolCalls)) =
      some ("Triage terminated: tool call budget exhausted", 16) ∧
    MaxToolRounds < 16 := by
  constructor
  · rfl
  · decide

/-- C2 (amended): the bound `tool_calls ≤ MaxToolRounds` holds at every
point the pre-call check fires in runs where every assistant turn
carries at most one `tool_use` block: starting from any loop state
within the cap, every `RunResult` the loop returns (in particular a
budget-exhausted one, whose `toolCalls` field is the counter at the
check that fired) satisfies `toolCalls ≤ MaxToolRounds`.  A single
assistant turn with several `tool_use` blocks can push the counter past
the cap before the next check fires. -/
theorem c2_tool_cap_single_blocks (registry : Registry)
    (provider : ProviderScript) (sys : String) :
    ∀ (fuel callIdx : Nat) (st : LoopState) (r : RunResult),
      (∀ i resp, provider i = Except.ok resp →
        countToolUse resp.content ≤ 1) →
      st.totalToolCalls ≤ MaxToolRounds →
      runLoop registry provider sys fuel callIdx st = some r →
      r.toolCalls ≤ MaxToolRounds := by
  intro fuel
  induction fuel with
  | zero =>
      intro callIdx st r _ _ hRun
      simp [runLoop] at hRun
  | succ n ih =>
      intro callIdx st r hBlocks hSt hRun
      rw [runLoop] at hRun
      by_cases h1 : st.totalToolCalls ≥ MaxToolRounds
      · rw [if_pos h1] at hRun
        cases hRun
        exact hSt
      · rw [if_neg h1] at hRun
        by_cases h2 : st.totalInputTokens + st.totalOutputTokens ≥ MaxTokens
        · rw [if_pos h2] at hRun
          cases hRun
          exact hSt
        · rw [if_neg h2] at hRun
          cases hResp : provider callIdx with
          | error e =>
              rw [hResp] at hRun
              cases hRun
              exact hSt
          | ok resp =>
              rw [hResp] at hRun
              dsimp only at hRun
              by_cases hEnd : resp.stopReason = "end_turn"
              · rw [if_pos hEnd] at hRun
                cases hRun
                exact hSt
              · rw [if_neg hEnd] at hRun
                by_cases hTool : resp.stopReason = "tool_use"
                · rw [if_pos hTool] at hRun
                  refine ih (callIdx + 1) _ r hBlocks ?_ hRun
                  have hc : (executeToolCalls registry resp.content
                      st.toolsUsed).2.1 = countToolUse resp.content :=
                    executeToolCalls_count registry resp.content st.toolsUsed
                  have hle : countToolUse resp.content ≤ 1 :=
                    hBlocks callIdx resp hResp
                  have hlt : st.totalToolCalls < MaxToolRounds :=
                    Nat.not_le.mp h1
                  simp only []
                  rw [hc]
                  omega
                · rw [if_neg hTool] at hRun
                  refine ih (callIdx + 1) _ r hBlocks ?_ hRun
                  exact hSt

/-- C2 (witness for the amended theorem): a one-call failing run from
the initial state. -/
theorem c2_tool_cap_single_blocks_witness :
    (finishResult Status.failed ("LLM error: " ++ "api key expired")
      (initState sampleAlert) (buildSystemPrompt sampleAlert)).toolCalls ≤
      MaxToolRounds :=
  c2_tool_cap_single_blocks emptyReg failScript
    (buildSystemPrompt sampleAlert) 1 0 (initState sampleAlert) _
    (fun i resp h => by simp [failScript] at h)
    (by decide) rfl

/-- C3 (code bug): with a provider whose every response has the
unrecognized stop reason `refusal` (one text block "oops", 60,000 input
tokens of usage), the loop does not treat the stop reason as terminal:
after two iterations it is still running (fuel 2 returns `none`), a
second provider call happens (the final conversation has two assistant
turns), and the run only ends via the token budget with analysis
"Triage terminated: token budget exhausted" - not, as the claim
requires, immediately after the first response with status `complete`
and analysis "oops", the last text block emitted. -/
theorem c3_unrecognized_stop_loops :
    engineRun emptyReg scriptRefusal sampleAlert 2 = none ∧
    (engineRun emptyReg scriptRefusal sampleAlert 5).map
        (fun r => (r.status, r.analysis, r.conversation.length)) =
      some (Status.complete,
        "Triage terminated: token budget exhausted", 2) := by
  constructor
  · rfl
  · rfl

end Vigil

namespace Vigil

/-- C4: for a firing alert, `Submit` skips as duplicate - storing nothing,
the returned store is the input store - exactly when the store's
fingerprint index resolves to a result whose status is `pending` or
`in_progress`; when it resolves to a terminal result or to nothing,
`Submit` stores a fresh `pending` result under the new id and returns
that id. -/
theorem c4_submit_dedup (s : MemStore) (al : Alert) (newID : String)
    (now : Nat) (hFiring : al.status = "firing") :
    (submitNewResult al newID now).status = Status.pending ∧
    (submitNewResult al newID now).id = newID ∧
    (∀ r, MemStore.getByFingerprint s al.fingerprint = some r →
      (r.status = Status.pending ∨ r.status = Status.inProgress) →
      serviceSubmit s al newID now =
        ({ skipped := true, reason := "duplicate" }, s)) ∧
    (∀ r, MemStore.getByFingerprint s al.fingerprint = some r →
      r.status ≠ Status.pending → r.status ≠ Status.inProgress →
      serviceSubmit s al newID now =
        ({ id := newID }, MemStore.put s (submitNewResult al newID now))) ∧
    (MemStore.getByFingerprint s al.fingerprint = none →
      serviceSubmit s al newID now =
        ({ id := newID }, MemStore.put s (submitNewResult al newID now))) := by
  refine ⟨rfl, rfl, ?_, ?_, ?_⟩
  · intro r hGet hAct
    simp [serviceSubmit, hFiring, hGet, hAct]
  · intro r hGet hP hIP
    simp [serviceSubmit, hFiring, hGet, hP, hIP]
  · intro hGet
    simp [serviceSubmit, hFiring, hGet]

/-- C4 (witness): a store with an active triage for the fingerprint is
skipped as duplicate; a store with only a terminal one, and the empty
store, accept and store the fresh pending result. -/
theorem c4_submit_dedup_witness :
    serviceSubmit dupStore sampleAlert "01NEW" 7 =
      ({ skipped := true, reason := "duplicate" }, dupStore) ∧
    serviceSubmit termStore sampleAlert "01NEW" 7 =
      ({ id := "01NEW" },
        MemStore.put termStore (submitNewResult sampleAlert "01NEW" 7)) ∧
    serviceSubmit {} sampleAlert "01NEW" 7 =
      ({ id := "01NEW" },
        MemStore.put {} (submitNewResult sampleAlert "01NEW" 7)) :=
  ⟨(c4_submit_dedup dupStore sampleAlert "01NEW" 7 rfl).2.2.1
      { id := "act", fingerprint := "fp-1", status := Status.pending }
      rfl (Or.inl rfl),
   (c4_submit_dedup termStore sampleAlert "01NEW" 7 rfl).2.2.2.1
      { id := "old", fingerprint := "fp-1", status := Status.complete }
      rfl (by decide) (by decide),
   (c4_submit_dedup {} sampleAlert "01NEW" 7 rfl).2.2.2.2 rfl⟩

/-- C5: a `Put` whose incoming result has no conversation, over a stored
result with the same id that has one, stores the incoming metadata with
the previously stored conversation pointer, leaves the conversation heap
untouched, and hence leaves the stored conversation contents
unchanged. -/
theorem c5_put_preserves_conversation (s : MemStore) (r ex : Result)
    (hNoConv : r.conversation = none)
    (hEx : alistFind s.results r.id = some ex)
    (hStored : ex.conversation ≠ none) :
    alistFind (MemStore.put s r).results r.id =
      some { r with conversation := ex.conversation } ∧
    (MemStore.put s r).convs = s.convs ∧
    MemStore.viewConv (MemStore.put s r)
        { r with conversation := ex.conversation } =
      MemStore.viewConv s ex := by
  refine ⟨?_, rfl, ?_⟩
  · simp [MemStore.put, hNoConv, hEx, hStored, alistFind_alistPut]
  · cases hc : ex.conversation <;>
      simp [MemStore.viewConv, MemStore.put, hc]

/-- C5 (witness): a metadata-only `Put` over the one-turn stored
conversation of `aliasStore2` keeps that conversation. -/
theorem c5_put_preserves_conversation_witness :
    alistFind (MemStore.put aliasStore2
        { id := "a", fingerprint := "f", analysis := "done" }).results "a" =
      some { id := "a", fingerprint := "f", analysis := "done"
             conversation := some 0 } ∧
    (MemStore.put aliasStore2
        { id := "a", fingerprint := "f", analysis := "done" }).convs =
      aliasStore2.convs ∧
    MemStore.viewConv (MemStore.put aliasStore2
          { id := "a", fingerprint := "f", analysis := "done" })
        { id := "a", fingerprint := "f", analysis := "done"
          conversation := some 0 } =
      MemStore.viewConv aliasStore2 aliasResult :=
  c5_put_preserves_conversation aliasStore2
    { id := "a", fingerprint := "f", analysis := "done" } aliasResult
    rfl rfl (by decide)

/-- C6: an error from the provider terminates the loop with status
`failed` and analysis "LLM error: " followed by the error message (for
any loop state whose pre-call budget checks pass); and when the very
first call errors, the run from the initial state returns that failure
with an empty conversation. -/
theorem c6_llm_error_fails (registry : Registry) (provider : ProviderScript)
    (sys : String) (al : Alert) (callIdx : Nat) (st : LoopState)
    (fuel : Nat) (e e0 : String)
    (hTools : st.totalToolCalls < MaxToolRounds)
    (hTok : st.totalInputTokens + st.totalOutputTokens < MaxTokens)
    (hErr : provider callIdx = Except.error e)
    (hFirst : provider 0 = Except.error e0) :
    runLoop registry provider sys (fuel + 1) callIdx st =
      some (finishResult Status.failed ("LLM error: " ++ e) st sys) ∧
    engineRun registry provider al (fuel + 1) =
      some (finishResult Status.failed ("LLM error: " ++ e0) (initState al)
        (buildSystemPrompt al)) ∧
    (finishResult Status.failed ("LLM error: " ++ e0) (initState al)
      (buildSystemPrompt al)).conversation = [] := by
  have h1 : ¬ st.totalToolCalls ≥ MaxToolRounds := Nat.not_le.mpr hTools
  have h2 : ¬ st.totalInputTokens + st.totalOutputTokens ≥ MaxTokens :=
    Nat.not_le.mpr hTok
  refine ⟨by simp [runLoop, h1, h2, hErr], ?_, rfl⟩
  have h3 : ¬ (initState al).totalToolCalls ≥ MaxToolRounds := by
    show ¬ (0 : Nat) ≥ MaxToolRounds
    decide
  have h4 : ¬ (initState al).totalInputTokens +
      (initState al).totalOutputTokens ≥ MaxTokens := by
    show ¬ (0 : Nat) + 0 ≥ MaxTokens
    decide
  simp [engineRun, runLoop, h3, h4, hFirst]

/-- C6 (witness): the failing provider on the first call of a run from
the initial state. -/
theorem c6_llm_error_fails_witness :
    runLoop emptyReg failScript (buildSystemPrompt sampleAlert) 1 0
        (initState sampleAlert) =
      some (finishResult Status.failed ("LLM error: " ++ "api key expired")
        (initState sampleAlert) (buildSystemPrompt sampleAlert)) ∧
    engineRun emptyReg failScript sampleAlert 1 =
      some (finishResult Status.failed ("LLM error: " ++ "api key expired")
        (initState sampleAlert) (buildSystemPrompt sampleAlert)) ∧
    (finishResult Status.failed ("LLM error: " ++ "api key expired")
      (initState sampleAlert) (buildSystemPrompt sampleAlert)).conversation =
      [] :=
  c6_llm_error_fails emptyReg failScript (buildSystemPrompt sampleAlert)
    sampleAlert 0 (initState sampleAlert) 0 "api key expired"
    "api key expired" (by decide) (by decide) rfl rfl

/-- C7: a `tool_use` block whose name is not registered invokes no tool
and yields exactly one `tool_result` with `is_error = true`, content
"unknown tool: " followed by the name, paired to the block's id, while
counting one call and recording the name; in the concrete run requesting
the unregistered `nonexistent_tool` and then ending the turn, the run
completes with `tool_calls = 1`, `tools_used = ["nonexistent_tool"]`,
and the user turn carries that single erroring `tool_result`. -/
theorem c7_unknown_tool (registry : Registry) (block : ContentBlock)
    (seen : List String)
    (hType : block.type = "tool_use")
    (hMiss : registry block.name = none) :
    executeToolCalls registry [block] seen =
      ([{ type := "tool_result", toolUseID := block.id
          content := "unknown tool: " ++ block.name, isError := true }],
        1, insertSeen seen block.name) ∧
    (engineRun emptyReg scriptUnknownTool sampleAlert 5).map
        (fun r => (r.status, r.toolCalls, r.toolsUsed, r.analysis)) =
      some (Status.complete, 1, ["nonexistent_tool"], "recovered") ∧
    (engineRun emptyReg scriptUnknownTool sampleAlert 5).map
        (fun r => r.conversation.map (fun t => (t.role, t.content))) =
      some [("assistant", [unknownToolBlock]),
        ("user", [{ type := "tool_result", toolUseID := "c1"
                    content := "unknown tool: nonexistent_tool"
                    isError := true }]),
        ("assistant", [{ type := "text", text := "recovered" }])] := by
  refine ⟨?_, ?_, ?_⟩
  · simp [executeToolCalls, hType, hMiss]
  · rfl
  · rfl

/-- C7 (witness): the unregistered block against the empty registry. -/
theorem c7_unknown_tool_witness :
    executeToolCalls emptyReg [unknownToolBlock] [] =
      ([{ type := "tool_result", toolUseID := unknownToolBlock.id
          content := "unknown tool: " ++ unknownToolBlock.name
          isError := true }],
        1, insertSeen [] unknownToolBlock.name) :=
  (c7_unknown_tool emptyReg unknownToolBlock [] rfl rfl).1

/-- C8 (code bug): `Get` returns a shallow copy whose conversation
pointer still aims into the store.  Against `aliasStore2` (one stored
turn) `Get` returns `aliasResult`; its observable conversation is
`[turnA]`, but after one more `AppendTurn` on the same triage the very
same returned value reads `[turnA, turnB]` - a store operation after
the call changed a `Result` previously handed to a caller, which the
claim forbids. -/
theorem c8_get_shares_conversation :
    MemStore.get aliasStore2 "a" = some aliasResult ∧
    MemStore.viewConv aliasStore2 aliasResult = some [turnA] ∧
    MemStore.viewConv aliasStore3 aliasResult = some [turnA, turnB] := by
  exact ⟨rfl, rfl, rfl⟩

/-- C9 (counterexample): after storing result `a` (`created_at = 10`)
and then result `b` (`created_at = 5`) under the same fingerprint,
`GetByFingerprint` returns `b` - the most recently `Put` - although `a`,
still in the store, is the most recent by `created_at`. -/
theorem c9_created_at_counterexample :
    MemStore.getByFingerprint fpStore "f" = some resultB ∧
    resultB.createdAt = 5 ∧
    MemStore.get fpStore "a" = some resultA ∧
    resultA.createdAt = 10 ∧ 5 < 10 := by
  exact ⟨rfl, rfl, rfl, rfl, by decide⟩

/-- C9 (amended): in the in-memory store, `GetByFingerprint` returns the
result most recently `Put` for that fingerprint - the entry its `seen`
index points at - regardless of `created_at`. -/
theorem c9_last_put_wins (s : MemStore) (r : Result) :
    MemStore.getByFingerprint (MemStore.put s r) r.fingerprint =
      MemStore.get (MemStore.put s r) r.id ∧
    (MemStore.get (MemStore.put s r) r.id).isSome = true := by
  constructor
  · simp [MemStore.getByFingerprint, MemStore.get, MemStore.put,
      alistFindS_alistPutS]
  · simp [MemStore.get, MemStore.put, alistFind_alistPut]

/-- C9 (witness for the amended theorem): a further `Put` over
`termStore`. -/
theorem c9_last_put_wins_witness :
    MemStore.getByFingerprint (MemStore.put termStore resultB)
        resultB.fingerprint =
      MemStore.get (MemStore.put termStore resultB) resultB.id ∧
    (MemStore.get (MemStore.put termStore resultB) resultB.id).isSome =
      true :=
  c9_last_put_wins termStore resultB

/-- C10: `AppendTurn` with a triage id that is not in the store returns
message id 0 (and the nil error the in-memory implementation always
returns) and leaves the store exactly as it was: the turn is silently
dropped. -/
theorem c10_append_turn_missing_id (s : MemStore) (triageID : String)
    (seq : Nat) (turn : Turn)
    (hMiss : alistFind s.results triageID = none) :
    MemStore.appendTurn s triageID seq turn = (0, s) := by
  simp [MemStore.appendTurn, hMiss]

/-- C10 (witness): appending to an id absent from the empty store. -/
theorem c10_append_turn_missing_id_witness :
    MemStore.appendTurn {} "missing" 3 turnA = (0, ({} : MemStore)) :=
  c10_append_turn_missing_id {} "missing" 3 turnA rfl

end Vigil
